import Mathlib

/-!
Verification development for the kubecsr repository (CSR approval engine,
cloud identity resolver, TTL cache and certificate signing decision).

The Go sources are embedded shallowly: pure functions become Lean
functions, stateful code threads explicit state, pointers to strings
become `Option String` (read through `stringValue`, mirroring
`aws.StringValue`), Go `nil` slices are the empty list (the only way a
parsed CSR yields an absent list), and impure collaborators (Kubernetes
API, cloud APIs, PKCS10 parsing, clocks) are explicit function
parameters.  Error-message strings follow the source texts, lightly
normalized to plain ASCII words.  The approval handlers additionally
record an invocation trace of the recognizer predicates and of the
submitted status updates; the trace fields are bookkeeping only and do
not feed back into control flow.
-/

namespace KubeCSR

/-- Go strings.HasPrefix, on the character lists of the strings. -/
def strStartsWith (s p : String) : Bool := p.data.isPrefixOf s.data

/-- Go strings.TrimPrefix: drop the prefix when present, else return s unchanged. -/
def strTrimPref (s p : String) : String :=
  if strStartsWith s p then ⟨s.data.drop p.data.length⟩ else s

/-- Go s[:len(s)-1] for an ASCII string: drop the final character. -/
def strDropLast (s : String) : String := ⟨s.data.dropLast⟩

/-- Go aws.StringValue / the empty-string reading of a nil string pointer. -/
def stringValue : Option String → String
  | none => ""
  | some s => s

/-- Key usages are the string tags of k8s.io/api/certificates/v1beta1. -/
abbrev KeyUsage := String

/-- One CertificateSigningRequestCondition (Type, Reason, Message). -/
structure CSRCondition where
  condType : String
  reason : String
  message : String
deriving DecidableEq

/-- CertificateSigningRequestStatus: certificate bytes plus conditions. -/
structure CSRStatus where
  certificate : List Nat
  conditions : List CSRCondition
deriving DecidableEq

/-- The fields of CertificateSigningRequestSpec the approvers read. -/
structure CSRSpec where
  username : String
  groups : List String
  usages : List KeyUsage
deriving DecidableEq

/-- A CertificateSigningRequest object. -/
structure CertificateSigningRequest where
  name : String
  spec : CSRSpec
  status : CSRStatus
deriving DecidableEq

/-- The fields of a parsed x509.CertificateRequest the approvers read. -/
structure X509CertificateRequest where
  organization : List String
  commonName : String
  dnsNames : List String
  emailAddresses : List String
  ipAddresses : List String
deriving DecidableEq

/-- A core/v1 Node, reduced to its status conditions (type, status). -/
structure NodeObj where
  conditions : List (String × String)
deriving DecidableEq

/-- Result of a Kubernetes Nodes Get call: IsNotFound is distinguished. -/
inductive KubeErr where
  | notFound
  | other (msg : String)
deriving DecidableEq

/-- Error text of a Kubernetes client error (stands in for the Go error text). -/
def kubeErrText : KubeErr → String
  | .notFound => "not found"
  | .other m => m

/-- getCertApprovalCondition: scan the conditions, flagging Approved and Denied.
Identical copies live in pkg/approver/aws and in the nodeapprover approver package. -/
def getCertApprovalCondition (status : CSRStatus) : Bool × Bool :=
  status.conditions.foldl
    (fun ad c => (ad.1 || c.condType == "Approved", ad.2 || c.condType == "Denied"))
    (false, false)

/-- kubeletClientUsages, as in both approver packages. -/
def kubeletClientUsages : List KeyUsage :=
  ["key encipherment", "digital signature", "client auth"]

/-- hasExactUsages: lengths must agree and every requested usage must occur in
the expected list (the Go version materializes the expected list as a map and
looks each requested usage up in it).  Identical copies live in both approver
packages. -/
def hasExactUsages (csr : CertificateSigningRequest) (usages : List KeyUsage) : Bool :=
  if usages.length != csr.spec.usages.length then false
  else csr.spec.usages.all (fun u => usages.contains u)

/-- Instrumented outcome of one handle call: the returned error (none is
success), the CSR value after any mutation, the status updates submitted
through UpdateApproval, whether ParseCSR ran, and the (chain, predicate)
indices of every recognizer invocation in order. -/
structure HandleResult where
  result : Option String
  finalCsr : CertificateSigningRequest
  updates : List CertificateSigningRequest
  parsed : Bool
  predCalls : List (Nat × Nat)
deriving DecidableEq

namespace NodeApprover

/-- recognizerFunc of the nodeapprover approver package: a boolean predicate. -/
abbrev recognizerFunc := CertificateSigningRequest → X509CertificateRequest → Bool

/-- csrRecognizer: an ordered predicate chain with its success message. -/
structure csrRecognizer where
  recognizers : List recognizerFunc
  successMessage : String

/-- The inner predicate loop of handle: run the predicates of one chain in
order, stopping at the first failure.  Returns whether the chain approved,
plus the indices of the predicates invoked ((ci, pj) numbering). -/
def runChain (rs : List recognizerFunc) (csr : CertificateSigningRequest)
    (x : X509CertificateRequest) (ci pj : Nat) : Bool × List (Nat × Nat) :=
  match rs with
  | [] => (true, [])
  | r :: rest =>
    if r csr x then
      let t := runChain rest csr x ci (pj + 1)
      (t.1, (ci, pj) :: t.2)
    else (false, [(ci, pj)])

/-- The chain loop of handle: try the chains in order; on the first chain whose
predicates all succeed, append the Approved condition and submit UpdateApproval
(whose error, when present, is wrapped and returned), then stop. -/
def handleLoop (chains : List csrRecognizer) (csr : CertificateSigningRequest)
    (x : X509CertificateRequest)
    (updateApproval : CertificateSigningRequest → Option String)
    (ci : Nat) : HandleResult :=
  match chains with
  | [] => ⟨none, csr, [], true, []⟩
  | c :: rest =>
    let t := runChain c.recognizers csr x ci 0
    if t.1 then
      let csr1 := { csr with status := { csr.status with
        conditions := csr.status.conditions ++ [⟨"Approved", "AutoApproved", c.successMessage⟩] } }
      match updateApproval csr1 with
      | some e => ⟨some ("error updating approval for csr: " ++ e), csr1, [csr1], true, t.2⟩
      | none => ⟨none, csr1, [csr1], true, t.2⟩
    else
      let r := handleLoop rest csr x updateApproval (ci + 1)
      { r with predCalls := t.2 ++ r.predCalls }

/-- Approver.handle of the nodeapprover approver package: skip requests that
already carry a certificate or an Approved/Denied condition, parse the
embedded request, then run the recognizer chains.  ParseCSR and UpdateApproval
are the external collaborators, passed as functions. -/
def handle (chains : List csrRecognizer)
    (parseCSR : CertificateSigningRequest → Except String X509CertificateRequest)
    (updateApproval : CertificateSigningRequest → Option String)
    (csr : CertificateSigningRequest) : HandleResult :=
  if csr.status.certificate.length != 0 then ⟨none, csr, [], false, []⟩
  else
    let ad := getCertApprovalCondition csr.status
    if ad.1 || ad.2 then ⟨none, csr, [], false, []⟩
    else
      match parseCSR csr with
      | .error e => ⟨some e, csr, [], true, []⟩
      | .ok x => handleLoop chains csr x updateApproval 0

/-- isNodeClientCert of the nodeapprover approver package: organization must
DeepEqual [system:nodes], no SANs, exact kubelet client usages, and the
common name must carry the system:node: prefix. -/
def isNodeClientCert (csr : CertificateSigningRequest) (x : X509CertificateRequest) : Bool :=
  if !(["system:nodes"] == x.organization) then false
  else if x.dnsNames.length > 0 || x.emailAddresses.length > 0 || x.ipAddresses.length > 0 then false
  else if !(hasExactUsages csr kubeletClientUsages) then false
  else if !(strStartsWith x.commonName "system:node:") then false
  else true

end NodeApprover

namespace Aws

/-- recognizerFunc of the aws approver package: returns nil (none) on success
and an error message on failure. -/
abbrev recognizerFunc := CertificateSigningRequest → X509CertificateRequest → Option String

/-- csrRecognizer of the aws approver package. -/
structure csrRecognizer where
  recognizers : List recognizerFunc
  successMessage : String

/-- getNodeNameFromCN: strip the system:node: prefix from the common name. -/
def getNodeNameFromCN (cn : String) : Except String String :=
  let nn := strTrimPref cn "system:node:"
  if nn == cn then .error "error system:node: prefix not found" else .ok nn

/-- getInstanceIDFromUsername: strip the system:bootstrappers: prefix. -/
def getInstanceIDFromUsername (username : String) : Except String String :=
  let id := strTrimPref username "system:bootstrappers:"
  if id == username then .error "error system:bootstrappers: prefix not found" else .ok id

/-- isNodeClientCert of the aws approver package.  The source chains the three
organization tests with the Go conjunction, faithfully reproduced here:
the whole test errors only when the list is non-nil AND its length differs
from one AND its first element differs from system:nodes. -/
def isNodeClientCert (csr : CertificateSigningRequest) (x : X509CertificateRequest) : Option String :=
  if !x.organization.isEmpty && x.organization.length != 1 &&
      x.organization.headD "" != "system:nodes" then
    some "isNodeClientCert: error mismatch org"
  else if x.dnsNames.length > 0 || x.emailAddresses.length > 0 || x.ipAddresses.length > 0 then
    some "isNodeClientCert: error non empty dnsnames emailaddress ipaddress"
  else if !(hasExactUsages csr kubeletClientUsages) then
    some "isNodeClientCert: error invalid key usages"
  else if !(strStartsWith x.commonName "system:node:") then
    some "isNodeClientCert: error common name does not have system:node: prefix"
  else none

/-- isSelfNodeClientCert: a node client cert whose requesting username equals
the common name. -/
def isSelfNodeClientCert (csr : CertificateSigningRequest) (x : X509CertificateRequest) : Option String :=
  match isNodeClientCert csr x with
  | some e => some e
  | none =>
    if csr.spec.username != x.commonName then
      some "isSelfNodeClientCert: error mismatch Username and CommonName"
    else none

/-- isValidNewNode: bootstrappers group present, instance id parsed from the
username must equal the id the cloud resolves for the node name in the common
name, and the node must not already exist in the cluster. -/
def isValidNewNode (f : String → Except String String)
    (nodesGet : String → Except KubeErr NodeObj) : recognizerFunc :=
  fun csr x =>
    if !csr.spec.groups.contains "system:bootstrappers" then
      some "isValidNewNode: error system:bootstrapper does not exist in groups"
    else
      match getInstanceIDFromUsername csr.spec.username with
      | .error e => some ("isValidNewNode: error getting id from username: " ++ e)
      | .ok idu =>
        match getNodeNameFromCN x.commonName with
        | .error e => some ("isValidNewNode: error getting node name from common name: " ++ e)
        | .ok nn =>
          match f nn with
          | .error e => some ("isValidNewNode: error getting instance id for " ++ nn ++ ": " ++ e)
          | .ok idn =>
            if idn != idu then
              some "isValidNewNode: error mismatch instance id from Username and CommonName"
            else
              match nodesGet nn with
              | .error .notFound => none
              | .error e => some ("isValidNewNode: error expecting node not found, got: " ++ kubeErrText e)
              | .ok _ => some "isValidNewNode: error expecting node not found, got: nil"

/-- isValidNode: system:nodes group present, the cloud resolves an instance for
the node name, and the node exists with a Ready=True condition. -/
def isValidNode (f : String → Except String String)
    (nodesGet : String → Except KubeErr NodeObj) : recognizerFunc :=
  fun csr x =>
    if !csr.spec.groups.contains "system:nodes" then
      some "isValidNewNode: error system:nodes does not exist in groups"
    else
      match getNodeNameFromCN x.commonName with
      | .error e => some ("isValidNewNode: error getting node name from common name: " ++ e)
      | .ok nn =>
        match f nn with
        | .error e => some ("isValidNode: error getting instance id for " ++ nn ++ ": " ++ e)
        | .ok _ =>
          match nodesGet nn with
          | .error e => some ("isValidNode: error getting node " ++ nn ++ ": " ++ kubeErrText e)
          | .ok node =>
            if node.conditions.any (fun c => c.1 == "Ready" && c.2 == "True") then none
            else some ("isValidNode: expecting node " ++ nn ++ " status to be ready, it is not ready")

/-- isValidASG: the auto scaling group resolved for the node name must be on
the allow list. -/
def isValidASG (allowedASGs : List String)
    (f : String → Except String String) : recognizerFunc :=
  fun _csr x =>
    match getNodeNameFromCN x.commonName with
    | .error e => some ("isValidASG: error getting node name from common name: " ++ e)
    | .ok nn =>
      match f nn with
      | .error e => some ("isValidASG: error getting auto scaling group for node " ++ nn ++ ": " ++ e)
      | .ok asg =>
        if !allowedASGs.contains asg then
          some ("isValidASG: node " ++ nn ++ " from invalid asg " ++ asg)
        else none

/-- Approver.recognizers of the aws package: self-node chain, then new-node
chain.  The cloud instanceID and autoScalingGroupID collaborators, the
Kubernetes Nodes Get collaborator and the ASG allow list are parameters. -/
def recognizers (instID asgID : String → Except String String)
    (nodesGet : String → Except KubeErr NodeObj)
    (allowedASGs : List String) : List csrRecognizer :=
  [ ⟨[isSelfNodeClientCert, isValidNode instID nodesGet, isValidASG allowedASGs asgID],
     "kube-aws-approver approved self node client cert"⟩,
    ⟨[isNodeClientCert, isValidNewNode instID nodesGet, isValidASG allowedASGs asgID],
     "kube-aws-approver approved new node client cert"⟩ ]

/-- The inner predicate loop of the aws handle.  The source line is
if rerr := r(csr, x509cr); err != nil, which tests the enclosing err from
ParseCSR (nil at that point) rather than rerr, so a failing predicate is
never detected; the predicate is still invoked.  Faithfully reproduced. -/
def runChain (rs : List recognizerFunc) (err : Option String)
    (csr : CertificateSigningRequest) (x : X509CertificateRequest)
    (ci pj : Nat) : Bool × List (Nat × Nat) :=
  match rs with
  | [] => (true, [])
  | r :: rest =>
    let _rerr := r csr x
    if err.isSome then (false, [(ci, pj)])
    else
      let t := runChain rest err csr x ci (pj + 1)
      (t.1, (ci, pj) :: t.2)

/-- The chain loop of the aws handle: on an approved chain, append the
Approved condition and submit UpdateApproval, then stop. -/
def handleLoop (chains : List csrRecognizer) (err : Option String)
    (csr : CertificateSigningRequest) (x : X509CertificateRequest)
    (updateApproval : CertificateSigningRequest → Option String)
    (ci : Nat) : HandleResult :=
  match chains with
  | [] => ⟨none, csr, [], true, []⟩
  | c :: rest =>
    let t := runChain c.recognizers err csr x ci 0
    if t.1 then
      let csr1 := { csr with status := { csr.status with
        conditions := csr.status.conditions ++ [⟨"Approved", "AutoApproved", c.successMessage⟩] } }
      match updateApproval csr1 with
      | some e => ⟨some ("error updating approval for csr: " ++ e), csr1, [csr1], true, t.2⟩
      | none => ⟨none, csr1, [csr1], true, t.2⟩
    else
      let r := handleLoop rest err csr x updateApproval (ci + 1)
      { r with predCalls := t.2 ++ r.predCalls }

/-- Approver.handle of the aws package (part_001): skip requests that already
carry a certificate or an Approved/Denied condition, parse, then run the
chain loop, whose predicate test reads the (nil) ParseCSR error. -/
def handle (chains : List csrRecognizer)
    (parseCSR : CertificateSigningRequest → Except String X509CertificateRequest)
    (updateApproval : CertificateSigningRequest → Option String)
    (csr : CertificateSigningRequest) : HandleResult :=
  if csr.status.certificate.length != 0 then ⟨none, csr, [], false, []⟩
  else
    let ad := getCertApprovalCondition csr.status
    if ad.1 || ad.2 then ⟨none, csr, [], false, []⟩
    else
      match parseCSR csr with
      | .error e => ⟨some e, csr, [], true, []⟩
      | .ok x => handleLoop chains none csr x updateApproval 0

/-- An EC2 instance as returned by DescribeInstances; InstanceId is a string
pointer in the SDK. -/
structure EC2Instance where
  instanceId : Option String
deriving DecidableEq

/-- A reservation groups instances inside a DescribeInstances response. -/
structure Reservation where
  instances : List EC2Instance
deriving DecidableEq

/-- One page of a DescribeInstances response. -/
structure DescribeInstancesResponse where
  reservations : List Reservation
  nextToken : Option String
deriving DecidableEq

/-- newEC2Filter: a name with its values. -/
def newEC2Filter (name : String) (values : List String) : String × List String :=
  (name, values)

/-- The filters awsCloud.instanceID installs: the node name as private DNS
name, and the running instance state. -/
def instanceIDFilters (nodeName : String) : List (String × List String) :=
  [newEC2Filter "private-dns-name" [nodeName], newEC2Filter "instance-state-name" ["running"]]

/-- The pagination loop of awsCloud.describeInstances over the successive API
responses: accumulate every instance of every reservation, stop once the
continuation token reads empty, fail on an API error.  A trace that ends while
the loop still wants another page yields none. -/
def describeInstancesLoop (responses : List (Except String DescribeInstancesResponse))
    (results : List EC2Instance) : Option (Except String (List EC2Instance)) :=
  match responses with
  | [] => none
  | resp :: rest =>
    match resp with
    | .error e => some (.error ("error listing AWS instances: " ++ e))
    | .ok response =>
      let results := response.reservations.foldl (fun acc rv => acc ++ rv.instances) results
      if stringValue response.nextToken == "" then some (.ok results)
      else describeInstancesLoop rest results

/-- awsCloud.describeInstances, starting from an empty result list. -/
def describeInstances (responses : List (Except String DescribeInstancesResponse)) :
    Option (Except String (List EC2Instance)) :=
  describeInstancesLoop responses []

/-- awsCloud.instanceID: describe the instances matching the node filters;
zero matches is an error, more than one is an error, otherwise the single
match yields its instance id.  The EC2 API is a function from the filter list
to the page trace it would serve. -/
def instanceID
    (ec2Api : List (String × List String) → List (Except String DescribeInstancesResponse))
    (nodeName : String) : Option (Except String String) :=
  let filters := instanceIDFilters nodeName
  match describeInstances (ec2Api filters) with
  | none => none
  | some (.error e) => some (.error e)
  | some (.ok instances) =>
    if instances.length == 0 then some (.error ("no instance found for " ++ nodeName))
    else if instances.length > 1 then
      some (.error ("multiple instances found for name: " ++ nodeName))
    else some (.ok (stringValue (instances.headD ⟨none⟩).instanceId))

/-- An auto scaling InstanceDetails record. -/
structure InstanceDetails where
  autoScalingGroupName : Option String
deriving DecidableEq

/-- One page of a DescribeAutoScalingInstances response. -/
structure DescribeAutoScalingInstancesResponse where
  autoScalingInstances : List InstanceDetails
  nextToken : Option String
deriving DecidableEq

/-- The pagination loop of awsCloud.describeAutoScalingInstances. -/
def describeAutoScalingInstancesLoop
    (responses : List (Except String DescribeAutoScalingInstancesResponse))
    (results : List InstanceDetails) : Option (Except String (List InstanceDetails)) :=
  match responses with
  | [] => none
  | resp :: rest =>
    match resp with
    | .error e => some (.error ("error listing AS instances: " ++ e))
    | .ok response =>
      let results := results ++ response.autoScalingInstances
      if stringValue response.nextToken == "" then some (.ok results)
      else describeAutoScalingInstancesLoop rest results

/-- awsCloud.describeAutoScalingInstances, starting from an empty result
list. -/
def describeAutoScalingInstances
    (responses : List (Except String DescribeAutoScalingInstancesResponse)) :
    Option (Except String (List InstanceDetails)) :=
  describeAutoScalingInstancesLoop responses []

/-- awsCloud.autoScalingGroupID: resolve the instance id for the node, then
describe the auto scaling instances for exactly that id; zero or multiple
matches fail, one match yields its group name.  The autoscaling API is a
function from the requested InstanceIds list to its page trace. -/
def autoScalingGroupID
    (ec2Api : List (String × List String) → List (Except String DescribeInstancesResponse))
    (asgApi : List String → List (Except String DescribeAutoScalingInstancesResponse))
    (nodeName : String) : Option (Except String String) :=
  match instanceID ec2Api nodeName with
  | none => none
  | some (.error e) => some (.error e)
  | some (.ok iid) =>
    if iid == "" then some (.error "error got empty instance id from aws")
    else
      match describeAutoScalingInstances (asgApi [iid]) with
      | none => none
      | some (.error e) => some (.error e)
      | some (.ok instances) =>
        if instances.length == 0 then
          some (.error ("error no instance group found for " ++ nodeName))
        else if instances.length > 1 then
          some (.error ("multiple auto scaling instances found for name: " ++ nodeName))
        else some (.ok (stringValue (instances.headD ⟨none⟩).autoScalingGroupName))

/-- azToRegion: drop the trailing zone letter; the empty string is invalid. -/
def azToRegion (az : String) : Except String String :=
  if az.data.length < 1 then .error "invalid (empty) AZ"
  else .ok (strDropLast az)

end Aws

namespace Azure

/-- wait.Backoff, reduced to the step count; Duration, Factor and Jitter only
shape the sleep intervals, which have no bearing on results or call counts. -/
structure Backoff where
  steps : Nat
deriving DecidableEq

/-- The error wait.ExponentialBackoff returns when the steps run out. -/
def errWaitTimeout : String := "timed out waiting for the condition"

/-- Modelled from k8s.io/apimachinery wait.ExponentialBackoff (an external
library): invoke the condition up to the given number of steps, returning as
soon as it reports done or returns a non-nil error; when the steps run out,
return errWaitTimeout.  The condition threads an explicit state, standing for
the Go closure captures; sleeps are elided. -/
def exponentialBackoffLoop {σ : Type} (cond : σ → σ × Bool × Option String) :
    Nat → σ → σ × Option String
  | 0, s => (s, some errWaitTimeout)
  | n + 1, s =>
    let r := cond s
    if r.2.2.isSome || r.2.1 then (r.1, r.2.2)
    else exponentialBackoffLoop cond n r.1

/-- wait.ExponentialBackoff with its Backoff configuration. -/
def exponentialBackoff {σ : Type} (bf : Backoff) (cond : σ → σ × Bool × Option String)
    (s : σ) : σ × Option String :=
  exponentialBackoffLoop cond bf.steps s

/-- A scale set entry of a list result (ID and Name, both dereferenced). -/
structure ScaleSetItem where
  id : String
  name : String
deriving DecidableEq

/-- One VirtualMachineScaleSetListResult page: an optional value slice and an
optional next link. -/
structure ScaleSetListPage where
  value : Option (List ScaleSetItem)
  nextLink : Option String
deriving DecidableEq

/-- A scale set VM as listed (ID plus the optional OsProfile computer name). -/
structure ScaleSetVM where
  id : String
  computerName : Option String
deriving DecidableEq

/-- One VirtualMachineScaleSetVMListResult page. -/
structure ScaleSetVMPage where
  value : Option (List ScaleSetVM)
  nextLink : Option String
deriving DecidableEq

/-- appendResults of the listing loops: the value slice is non-nil and
non-empty. -/
def appendResultsOfList (p : ScaleSetListPage) : Bool :=
  match p.value with
  | some l => !l.isEmpty
  | none => false

/-- The items carried by a list page (empty when the value slice is nil). -/
def listPageItems (p : ScaleSetListPage) : List ScaleSetItem :=
  match p.value with
  | some l => l
  | none => []

/-- appendResults for the VM listing loop. -/
def appendResultsOfVM (p : ScaleSetVMPage) : Bool :=
  match p.value with
  | some l => !l.isEmpty
  | none => false

/-- The VMs carried by a VM page. -/
def vmPageItems (p : ScaleSetVMPage) : List ScaleSetVM :=
  match p.value with
  | some l => l
  | none => []

/-- The backoff condition closure shared by the listing calls: invoke the
client (successive calls are numbered), store the outcome, and report
(false, err) on an error or (true, nil) on success, exactly as the closures in
listScaleSetsWithRetry and listScaleSetVMsWithRetry do. -/
def listClientCond {π : Type} (client : Nat → Except String π)
    (s : Nat × Option (Except String π)) :
    (Nat × Option (Except String π)) × Bool × Option String :=
  let r := client s.1
  ((s.1 + 1, some r),
   match r with
   | .error e => (false, some e)
   | .ok _ => (true, none))

/-- The pagination loop of listScaleSetsWithRetry, fueled by a page bound.
The call counter records how many client invocations happened; on each next
link the ListNextResults call runs under the same backoff wrapper. -/
def listScaleSetsLoop (bf : Backoff) (client : Nat → Except String ScaleSetListPage) :
    Nat → List ScaleSetItem → ScaleSetListPage → Nat →
    Option (Except String (List ScaleSetItem) × Nat)
  | 0, _, _, _ => none
  | fuel + 1, acc, result, calls =>
    if appendResultsOfList result then
      let acc := acc ++ listPageItems result
      match result.nextLink with
      | none => some (.ok acc, calls)
      | some _ =>
        let st := exponentialBackoff bf (listClientCond client) (calls, none)
        match st.2 with
        | some e => some (.error e, st.1.1)
        | none =>
          match st.1.2 with
          | some (.ok r) => listScaleSetsLoop bf client fuel acc r st.1.1
          | _ => none
    else some (.ok acc, calls)

/-- scaleSet.listScaleSetsWithRetry: pick the configured backoff when enabled
(one step otherwise), make the initial List call under the backoff wrapper,
then follow the next links.  The client maps the call number to the API
outcome; the result carries the total number of client calls. -/
def listScaleSetsWithRetry (cloudProviderBackoff : Bool) (resourceRequestBackoff : Backoff)
    (client : Nat → Except String ScaleSetListPage) (fuel : Nat) :
    Option (Except String (List ScaleSetItem) × Nat) :=
  let bf : Backoff := if cloudProviderBackoff then resourceRequestBackoff else ⟨1⟩
  let st := exponentialBackoff bf (listClientCond client) (0, none)
  match st.2 with
  | some e => some (.error e, st.1.1)
  | none =>
    match st.1.2 with
    | some (.ok r) => listScaleSetsLoop bf client fuel [] r st.1.1
    | _ => none

/-- The pagination loop of listScaleSetVMsWithRetry. -/
def listScaleSetVMsLoop (bf : Backoff) (client : Nat → Except String ScaleSetVMPage) :
    Nat → List ScaleSetVM → ScaleSetVMPage → Nat →
    Option (Except String (List ScaleSetVM) × Nat)
  | 0, _, _, _ => none
  | fuel + 1, acc, result, calls =>
    if appendResultsOfVM result then
      let acc := acc ++ vmPageItems result
      match result.nextLink with
      | none => some (.ok acc, calls)
      | some _ =>
        let st := exponentialBackoff bf (listClientCond client) (calls, none)
        match st.2 with
        | some e => some (.error e, st.1.1)
        | none =>
          match st.1.2 with
          | some (.ok r) => listScaleSetVMsLoop bf client fuel acc r st.1.1
          | _ => none
    else some (.ok acc, calls)

/-- scaleSet.listScaleSetVMsWithRetry for one scale set name; the client is
the call stream the VM listing API serves for that name. -/
def listScaleSetVMsWithRetry (cloudProviderBackoff : Bool) (resourceRequestBackoff : Backoff)
    (client : Nat → Except String ScaleSetVMPage) (fuel : Nat) :
    Option (Except String (List ScaleSetVM) × Nat) :=
  let bf : Backoff := if cloudProviderBackoff then resourceRequestBackoff else ⟨1⟩
  let st := exponentialBackoff bf (listClientCond client) (0, none)
  match st.2 with
  | some e => some (.error e, st.1.1)
  | none =>
    match st.1.2 with
    | some (.ok r) => listScaleSetVMsLoop bf client fuel [] r st.1.1
    | _ => none

/-- The sentinel errors of the cloudprovider package plus wrapped API errors. -/
inductive CloudErr where
  | instanceNotFound
  | instanceGroupNotFound
  | other (msg : String)
deriving DecidableEq

/-- scaleSetVMInfo: instance id, node name, and the embedded scaleSetInfo. -/
structure ScaleSetVMInfo where
  id : String
  nodeName : String
  ssId : String
  ssName : String
deriving DecidableEq

/-- The scale set cache: scale set name to its member VM records. -/
abbrev ScaleSetCache := List (String × List ScaleSetVMInfo)

/-- The mutable state of the scaleSet resolver: the snapshot cache and the
availabilitySetNodesCache (the negative set of nodes known to belong to no
scale set). -/
structure ScaleSetState where
  cache : ScaleSetCache
  availabilitySetNodesCache : List String
deriving DecidableEq

/-- getVMFromCache inside getCachedVirtualMachine: scan every scale set for a
VM whose node name matches. -/
def getVMFromCache (cache : ScaleSetCache) (nodeName : String) : Option ScaleSetVMInfo :=
  match cache with
  | [] => none
  | (_, vms) :: rest =>
    match vms.find? (fun vm => vm.nodeName == nodeName) with
    | some vm => some vm
    | none => getVMFromCache rest nodeName

/-- scaleSet.getCachedVirtualMachine: serve from the snapshot; on a miss,
short-circuit via the negative set; otherwise refresh the snapshot (the
outcome of the updateCache cloud enumeration is the freshCache argument) and
retry; a second miss inserts the node into the negative set and reports
ErrInstanceNotFound. -/
def getCachedVirtualMachine (st : ScaleSetState) (freshCache : Except CloudErr ScaleSetCache)
    (nodeName : String) : Except CloudErr ScaleSetVMInfo × ScaleSetState :=
  match getVMFromCache st.cache nodeName with
  | some vm => (.ok vm, st)
  | none =>
    if st.availabilitySetNodesCache.contains nodeName then
      (.error .instanceNotFound, st)
    else
      match freshCache with
      | .error e => (.error e, st)
      | .ok newCache =>
        let st1 : ScaleSetState := { st with cache := newCache }
        match getVMFromCache st1.cache nodeName with
        | some vm => (.ok vm, st1)
        | none =>
          (.error .instanceNotFound,
           { st1 with
             availabilitySetNodesCache := st1.availabilitySetNodesCache ++ [nodeName] })

/-- scaleSet.GetInstanceIDByNodeName: look the node up in the scale set cache;
exactly on ErrInstanceNotFound fall back to the availability set resolver
(passed as a function); other errors propagate. -/
def getInstanceIDByNodeName (st : ScaleSetState) (freshCache : Except CloudErr ScaleSetCache)
    (availabilitySetGetInstanceID : String → Except CloudErr String)
    (name : String) : Except CloudErr String × ScaleSetState :=
  let r := getCachedVirtualMachine st freshCache name
  match r.1 with
  | .ok vm => (.ok vm.id, r.2)
  | .error e =>
    if e == CloudErr.instanceNotFound then (availabilitySetGetInstanceID name, r.2)
    else (.error e, r.2)

end Azure

namespace Internal

/-- timedcacheEntry plus the timestamp the TTL store records on Add. -/
structure TimedCacheEntry (α : Type) where
  key : String
  data : α
  addedAt : Nat
deriving DecidableEq

/-- TimedCache over a client-go TTL store (modelled after cache.NewTTLStore):
entries expire lazily once their age exceeds the ttl. -/
structure TimedCache (α : Type) where
  ttl : Nat
  entries : List (TimedCacheEntry α)
deriving DecidableEq

/-- GetByKey of the TTL store at the given clock reading: an entry older than
the ttl is treated as absent.  The cacheKeyFunc of this store never fails, so
the error return of the Go GetByKey is always nil and is omitted. -/
def getByKey {α : Type} (t : TimedCache α) (now : Nat) (key : String) : Option α :=
  match t.entries.find? (fun e => e.key == key) with
  | some e => if now - e.addedAt > t.ttl then none else some e.data
  | none => none

/-- Add of the TTL store: replace any entry of the same key, stamping the
current clock reading. -/
def storeAdd {α : Type} (t : TimedCache α) (now : Nat) (key : String) (data : α) :
    TimedCache α :=
  { t with entries := ⟨key, data, now⟩ :: t.entries.filter (fun e => !(e.key == key)) }

/-- Outcome of GetOrCreate: the returned value, the returned error (always nil
here, kept to mirror the signature), the cache afterwards, and whether the
factory ran. -/
structure GetOrCreateResult (α : Type) where
  value : Option α
  err : Option String
  cache : TimedCache α
  factoryInvoked : Bool

/-- TimedCache.GetOrCreate: optimistic lookup, then the double-checked lookup
under the lock (a second lookup of the same state in this sequential model),
then, on a miss, return nil for a nil createFunc or invoke the factory and
store its value. -/
def GetOrCreate {α : Type} (t : TimedCache α) (now : Nat) (key : String)
    (createFunc : Option (Unit → α)) : GetOrCreateResult α :=
  match getByKey t now key with
  | some v => ⟨some v, none, t, false⟩
  | none =>
    match getByKey t now key with
    | some v => ⟨some v, none, t, false⟩
    | none =>
      match createFunc with
      | none => ⟨none, none, t, false⟩
      | some f =>
        let created := f ()
        ⟨some created, none, storeAdd t now key created, true⟩

end Internal

namespace CertSignerV1

end CertSignerV1

namespace CertSignerV2

end CertSignerV2

/-! Concrete inputs used by the claim theorems and witnesses. -/

/-- A CSR that already carries an Approved condition, for the C2 witness. -/
def c2CsrW : CertificateSigningRequest :=
  { name := "csr-done", spec := { username := "u", groups := [], usages := [] },
    status := { certificate := [],
                conditions := [⟨"Approved", "AutoApproved", "done earlier"⟩] } }

/-- A request whose usage list repeats key encipherment, for the C4
counterexample. -/
def c4Csr : CertificateSigningRequest :=
  { name := "csr-dup",
    spec := { username := "u", groups := [],
              usages := ["key encipherment", "key encipherment", "digital signature"] },
    status := { certificate := [], conditions := [] } }

/-- A concrete cache holding one fresh entry, for the C10 witness. -/
def c10CacheW : Internal.TimedCache String := ⟨15, [⟨"node-1", "vm-1", 0⟩]⟩

/-- A pending CSR whose first-chain first predicate fails (the common name
lacks the system:node: prefix), for C1. -/
def c1Csr : CertificateSigningRequest :=
  { name := "csr-1",
    spec := { username := "system:bootstrappers:i-111",
              groups := ["system:bootstrappers"], usages := kubeletClientUsages },
    status := { certificate := [], conditions := [] } }

/-- The parsed request paired with c1Csr. -/
def c1X : X509CertificateRequest :=
  { organization := ["system:nodes"], commonName := "worker-evil",
    dnsNames := [], emailAddresses := [], ipAddresses := [] }

/-- A cloud resolver that always fails, for the C1 and C3 runs. -/
def cloudFails : String → Except String String := fun _ => .error "lookup failed"

/-- A Nodes Get collaborator that always reports not found. -/
def nodesGetNotFound : String → Except KubeErr NodeObj := fun _ => .error .notFound

/-- The aws recognizer chains instantiated with the failing collaborators. -/
def c1Chains : List Aws.csrRecognizer :=
  Aws.recognizers cloudFails cloudFails nodesGetNotFound ["asg-allowed"]

/-- c1Csr after the aws handle stamped the first-chain approval on it. -/
def c1Approved : CertificateSigningRequest :=
  { c1Csr with status := { c1Csr.status with
      conditions := [⟨"Approved", "AutoApproved",
                      "kube-aws-approver approved self node client cert"⟩] } }

/-- A pending CSR on which no aws chain fully matches (the resolver fails for
the self chain and the bootstrappers group is absent for the new-node chain),
for C3. -/
def c3Csr : CertificateSigningRequest :=
  { name := "csr-3",
    spec := { username := "system:node:master-1",
              groups := ["system:nodes"], usages := kubeletClientUsages },
    status := { certificate := [], conditions := [] } }

/-- The parsed request paired with c3Csr. -/
def c3X : X509CertificateRequest :=
  { organization := ["system:nodes"], commonName := "system:node:master-1",
    dnsNames := [], emailAddresses := [], ipAddresses := [] }

/-- c3Csr after the aws handle stamped the first-chain approval on it. -/
def c3Approved : CertificateSigningRequest :=
  { c3Csr with status := { c3Csr.status with
      conditions := [⟨"Approved", "AutoApproved",
                      "kube-aws-approver approved self node client cert"⟩] } }

/-- A parsed request carrying a single unrecognized organization, for C5. -/
def c5X : X509CertificateRequest :=
  { organization := ["evil"], commonName := "system:node:foo",
    dnsNames := [], emailAddresses := [], ipAddresses := [] }

/-- The CSR paired with c5X: exact kubelet client usages. -/
def c5Csr : CertificateSigningRequest :=
  { name := "csr-5",
    spec := { username := "system:node:foo", groups := [],
              usages := kubeletClientUsages },
    status := { certificate := [], conditions := [] } }

/-- A scale set listing client that fails with a transient error on every
attempt, for C7. -/
def transientListClient : Nat → Except String Azure.ScaleSetListPage :=
  fun _ => .error "transient network error"

/-- A scale set VM listing client that fails with a transient error on every
attempt, for C7. -/
def transientVMClient : Nat → Except String Azure.ScaleSetVMPage :=
  fun _ => .error "transient network error"

/-- An empty scale set resolver state, for the C9 counterexample. -/
def c9State : Azure.ScaleSetState := ⟨[], []⟩

/-- A DescribeInstances page trace the pagination loop consumes completely:
every response is a success, every page but the last carries a non-empty
continuation token, and the last page carries an empty one.  Used to state
the accumulation property of describeInstances. -/
def completePages : List (Except String Aws.DescribeInstancesResponse) → Bool
  | [] => false
  | .error _ :: _ => false
  | .ok r :: rest =>
    if stringValue r.nextToken == "" then rest.isEmpty
    else completePages rest

/-- The instances accumulated across a DescribeInstances page trace, reading
the pages in order; the right-hand side of the accumulation property. -/
def pagesInstances :
    List (Except String Aws.DescribeInstancesResponse) → List Aws.EC2Instance →
      List Aws.EC2Instance
  | [], acc => acc
  | .error _ :: rest, acc => pagesInstances rest acc
  | .ok r :: rest, acc =>
    pagesInstances rest (r.reservations.foldl (fun a rv => a ++ rv.instances) acc)

/-- First DescribeInstances page of the C6 witness: one instance, more to
come. -/
def c6Page1 : Aws.DescribeInstancesResponse := ⟨[⟨[⟨some "i-1"⟩]⟩], some "token-1"⟩

/-- Final DescribeInstances page of the C6 witness: empty, no continuation. -/
def c6Page2 : Aws.DescribeInstancesResponse := ⟨[], none⟩

/-- An EC2 API serving the two-page witness trace for any filter list. -/
def c6Ec2Api : List (String × List String) → List (Except String Aws.DescribeInstancesResponse) :=
  fun _ => [.ok c6Page1, .ok c6Page2]

/-- An autoscaling API serving one single-record page. -/
def c6AsgApi : List String → List (Except String Aws.DescribeAutoScalingInstancesResponse) :=
  fun _ => [.ok ⟨[⟨some "asg-1"⟩], none⟩]

/-- The folded Approved/Denied flags are the two any-scans of the condition
list, whatever the starting flags. -/
theorem foldl_approval_flags (l : List CSRCondition) (a d : Bool) :
    l.foldl (fun ad c => (ad.1 || c.condType == "Approved", ad.2 || c.condType == "Denied")) (a, d)
      = (a || l.any (fun c => c.condType == "Approved"),
         d || l.any (fun c => c.condType == "Denied")) := by
  induction l generalizing a d with
  | nil => simp
  | cons c t ih => simp [List.any_cons, ih, Bool.or_assoc]

/-- getCertApprovalCondition in terms of the two any-scans. -/
theorem getCertApprovalCondition_eq (st : CSRStatus) :
    getCertApprovalCondition st
      = (st.conditions.any (fun c => c.condType == "Approved"),
         st.conditions.any (fun c => c.condType == "Denied")) := by
  unfold getCertApprovalCondition
  rw [foldl_approval_flags]
  simp

/-- A terminal condition makes the disjunction of the two flags true. -/
theorem approval_flags_of_terminal (st : CSRStatus)
    (h : ∃ c ∈ st.conditions, c.condType = "Approved" ∨ c.condType = "Denied") :
    ((getCertApprovalCondition st).1 || (getCertApprovalCondition st).2) = true := by
  rw [getCertApprovalCondition_eq]
  rcases h with ⟨c, hc, hty | hty⟩
  · simp only [Bool.or_eq_true, List.any_eq_true]
    exact Or.inl ⟨c, hc, by simp [hty]⟩
  · simp only [Bool.or_eq_true, List.any_eq_true]
    exact Or.inr ⟨c, hc, by simp [hty]⟩

/-! Claim theorems. -/

/-- C2: a request that already carries a non-empty status certificate or an
Approved or Denied condition is skipped by both reconciliation handlers: the
handler returns success, the request is unchanged, ParseCSR is never invoked,
no recognizer (hence no resolver) runs, and no status update is submitted. -/
theorem c2_skip_fast (chainsE : List Aws.csrRecognizer)
    (chainsB : List NodeApprover.csrRecognizer)
    (parse1 parse2 : CertificateSigningRequest → Except String X509CertificateRequest)
    (upd1 upd2 : CertificateSigningRequest → Option String)
    (csr : CertificateSigningRequest)
    (h : csr.status.certificate ≠ [] ∨
         ∃ c ∈ csr.status.conditions, c.condType = "Approved" ∨ c.condType = "Denied") :
    Aws.handle chainsE parse1 upd1 csr = ⟨none, csr, [], false, []⟩ ∧
    NodeApprover.handle chainsB parse2 upd2 csr = ⟨none, csr, [], false, []⟩ := by
  by_cases hb : (csr.status.certificate.length != 0) = true
  · constructor <;> simp [Aws.handle, NodeApprover.handle, hb]
  · have hcond : ∃ c ∈ csr.status.conditions, c.condType = "Approved" ∨ c.condType = "Denied" := by
      rcases h with h | h
      · exact absurd (by simpa [bne_iff_ne, List.length_eq_zero] using hb) h
      · exact h
    have hflag := approval_flags_of_terminal csr.status hcond
    constructor <;> simp [Aws.handle, NodeApprover.handle, hb, hflag]

/-- Witness for C2 at a concrete already-approved request. -/
theorem c2_skip_fast_witness :
    Aws.handle [] (fun _ => .error "boom") (fun _ => some "boom") c2CsrW
      = ⟨none, c2CsrW, [], false, []⟩ ∧
    NodeApprover.handle [] (fun _ => .error "boom") (fun _ => some "boom") c2CsrW
      = ⟨none, c2CsrW, [], false, []⟩ :=
  c2_skip_fast [] [] (fun _ => .error "boom") (fun _ => .error "boom")
    (fun _ => some "boom") (fun _ => some "boom") c2CsrW
    (Or.inr ⟨⟨"Approved", "AutoApproved", "done earlier"⟩, List.mem_singleton_self _, Or.inl rfl⟩)

/-- C4 amended: hasExactUsages is true exactly when the two lists have equal
length and every requested usage occurs in the expected list; when both lists
are duplicate-free this coincides with equality as sets (order-independent),
and in particular strict supersets and strict subsets are rejected.  With
duplicates the set reading fails (see the counterexample). -/
theorem c4_exact_usages (csr : CertificateSigningRequest) (usages : List KeyUsage) :
    (hasExactUsages csr usages = true ↔
      (csr.spec.usages.length = usages.length ∧ ∀ u ∈ csr.spec.usages, u ∈ usages))
  ∧ (csr.spec.usages.Nodup → usages.Nodup →
      (hasExactUsages csr usages = true ↔ csr.spec.usages.toFinset = usages.toFinset)) := by
  have h1 : hasExactUsages csr usages = true ↔
      (csr.spec.usages.length = usages.length ∧ ∀ u ∈ csr.spec.usages, u ∈ usages) := by
    unfold hasExactUsages
    by_cases hl : usages.length = csr.spec.usages.length
    · have hbne : (usages.length != csr.spec.usages.length) = false := by
        simp [hl]
      simp only [hbne, Bool.false_eq_true, if_false, List.all_eq_true]
      constructor
      · intro hall
        exact ⟨hl.symm, fun u hu => List.elem_iff.mp (hall u hu)⟩
      · intro hpair u hu
        exact List.elem_iff.mpr (hpair.2 u hu)
    · have : (usages.length != csr.spec.usages.length) = true := by simpa [bne_iff_ne] using hl
      simp only [this, if_true]
      constructor
      · intro hfalse; exact absurd hfalse (by simp)
      · intro ⟨hlen, _⟩; exact absurd hlen.symm hl
  refine ⟨h1, fun hn1 hn2 => ?_⟩
  rw [h1]
  constructor
  · intro ⟨hlen, hmem⟩
    have hsub : csr.spec.usages.toFinset ⊆ usages.toFinset := by
      intro a ha
      exact List.mem_toFinset.mpr (hmem a (List.mem_toFinset.mp ha))
    refine Finset.eq_of_subset_of_card_le hsub ?_
    rw [List.toFinset_card_of_nodup hn1, List.toFinset_card_of_nodup hn2, hlen]
  · intro hfin
    have hmem : ∀ u ∈ csr.spec.usages, u ∈ usages := by
      intro u hu
      exact List.mem_toFinset.mp (hfin ▸ List.mem_toFinset.mpr hu)
    have hlen : csr.spec.usages.length = usages.length := by
      rw [← List.toFinset_card_of_nodup hn1, ← List.toFinset_card_of_nodup hn2, hfin]
    exact ⟨hlen, hmem⟩

/-- Counterexample to C4 as stated: with a duplicated usage in the request,
hasExactUsages accepts a list whose underlying set is a strict subset of the
expected set, so the function is not set equality on arbitrary lists. -/
theorem c4_counterexample :
    hasExactUsages c4Csr kubeletClientUsages = true ∧
    c4Csr.spec.usages.toFinset ≠ kubeletClientUsages.toFinset := by
  refine ⟨rfl, ?_⟩
  decide

/-- Witness for the amended C4 at the exact kubelet client usage set. -/
theorem c4_exact_usages_witness :
    hasExactUsages
        { name := "csr-w", spec := { username := "u", groups := [], usages := kubeletClientUsages },
          status := { certificate := [], conditions := [] } } kubeletClientUsages = true ↔
      kubeletClientUsages.toFinset = kubeletClientUsages.toFinset :=
  (c4_exact_usages
      { name := "csr-w", spec := { username := "u", groups := [], usages := kubeletClientUsages },
        status := { certificate := [], conditions := [] } } kubeletClientUsages).2
    (by decide) (by decide)

/-- C10: on a miss (no unexpired entry) with a nil factory, GetOrCreate
returns a nil value and a nil error, invokes nothing and leaves the cache
untouched, so any later lookup behaves exactly as before; on a hit it returns
the cached value without ever invoking the supplied factory. -/
theorem c10_get_or_create (α : Type) (t : Internal.TimedCache α) (now : Nat) (key : String) :
    (Internal.getByKey t now key = none →
        Internal.GetOrCreate t now key none = ⟨none, none, t, false⟩
      ∧ ∀ now2 key2,
          Internal.getByKey (Internal.GetOrCreate t now key none).cache now2 key2
            = Internal.getByKey t now2 key2)
  ∧ (∀ (v : α) (f : Option (Unit → α)), Internal.getByKey t now key = some v →
        Internal.GetOrCreate t now key f = ⟨some v, none, t, false⟩) := by
  constructor
  · intro h
    constructor
    · simp [Internal.GetOrCreate, h]
    · intro now2 key2
      simp [Internal.GetOrCreate, h]
  · intro v f h
    simp [Internal.GetOrCreate, h]

/-- Witness for C10: a hit returns the cached value with no factory call, and
a miss with a nil factory returns nil and leaves the cache untouched. -/
theorem c10_get_or_create_witness :
    Internal.GetOrCreate c10CacheW 5 "node-1" none
      = ⟨some "vm-1", none, c10CacheW, false⟩ ∧
    Internal.GetOrCreate c10CacheW 5 "node-2" none
      = ⟨none, none, c10CacheW, false⟩ :=
  ⟨(c10_get_or_create String c10CacheW 5 "node-1").2 "vm-1" none rfl,
   ((c10_get_or_create String c10CacheW 5 "node-2").1 rfl).1⟩

/-- C1 (code bug): in the aws handle, the first predicate of the first chain
fails on this input, yet the run invokes all three predicates of that chain
((0,0), (0,1), (0,2)): the failure neither short-circuits the chain nor stops
it from matching, the first chain label is approved and submitted, and the
second chain is never evaluated.  The loop tests the nil ParseCSR error
instead of the predicate result. -/
theorem c1_aws_chain_bug :
    Aws.isSelfNodeClientCert c1Csr c1X ≠ none ∧
    Aws.handle c1Chains (fun _ => .ok c1X) (fun _ => none) c1Csr
      = ⟨none, c1Approved, [c1Approved], true, [(0, 0), (0, 1), (0, 2)]⟩ := by
  exact ⟨by decide, rfl⟩

/-- C3 (code bug): on this input a predicate fails in each of the two aws
chains, so no chain fully matches; the claim then demands success with no
appended condition and no status update, but the aws handle still appends an
Approved condition and submits an update (the first chain always wins through
the nil-error test).  The never-Denied part does hold: the appended condition
is Approved. -/
theorem c3_no_match_still_updates :
    Aws.isValidNode cloudFails nodesGetNotFound c3Csr c3X ≠ none ∧
    Aws.isValidNewNode cloudFails nodesGetNotFound c3Csr c3X ≠ none ∧
    Aws.handle c1Chains (fun _ => .ok c3X) (fun _ => none) c3Csr
      = ⟨none, c3Approved, [c3Approved], true, [(0, 0), (0, 1), (0, 2)]⟩ := by
  exact ⟨by decide, by decide, rfl⟩

/-- C5 (code bug): the aws isNodeClientCert chains its organization tests with
the Go conjunction, so a single organization different from system:nodes slips
through and the predicate succeeds, against its own doc comment; the
nodeapprover copy of isNodeClientCert rejects the same input. -/
theorem c5_org_check_bug :
    Aws.isNodeClientCert c5Csr c5X = none ∧
    NodeApprover.isNodeClientCert c5Csr c5X = false ∧
    c5X.organization ≠ ["system:nodes"] := by
  exact ⟨rfl, rfl, by decide⟩

/-- C7 (code bug): with backoff enabled and three configured steps, both
listing wrappers make exactly one client call and return the transient error
immediately: the backoff conditions return the error, and
wait.ExponentialBackoff aborts on any condition error, so no retry ever
happens for any error kind. -/
theorem c7_with_retry_never_retries :
    Azure.listScaleSetsWithRetry true ⟨3⟩ transientListClient 10
      = some (.error "transient network error", 1) ∧
    Azure.listScaleSetVMsWithRetry true ⟨3⟩ transientVMClient 10
      = some (.error "transient network error", 1) := by
  exact ⟨rfl, rfl⟩

/-- C9 counterexample: the node is absent from the scale set snapshot before
and after the refresh, the flat availability-set resolver RESOLVES it
successfully, and yet the node lands in the negative set: insertion does not
wait for the flat path to fail, refuting the claim that a node is inserted
only after a confirmed miss on both paths. -/
theorem c9_counterexample :
    (Azure.getInstanceIDByNodeName c9State (.ok []) (fun _ => .ok "flat-vm-id") "node-a").1
      = .ok "flat-vm-id" ∧
    (Azure.getInstanceIDByNodeName c9State (.ok []) (fun _ => .ok "flat-vm-id")
        "node-a").2.availabilitySetNodesCache.contains "node-a" = true := by
  exact ⟨rfl, rfl⟩

/-- C9 amended: the scale-set resolver inserts a node into the negative set
exactly when the node misses the snapshot both before and after the
synchronous refresh (nodes already in the set stay there); the flat
availability-set fallback runs afterwards in GetInstanceIDByNodeName and has
no influence on the resulting state. -/
theorem c9_negative_set_insertion (st : Azure.ScaleSetState)
    (fresh : Except Azure.CloudErr Azure.ScaleSetCache)
    (flat flat2 : String → Except Azure.CloudErr String) (name : String) :
    ((Azure.getInstanceIDByNodeName st fresh flat name).2.availabilitySetNodesCache.contains name
      = (st.availabilitySetNodesCache.contains name ||
         ((Azure.getVMFromCache st.cache name).isNone &&
          (match fresh with
           | .ok c => (Azure.getVMFromCache c name).isNone
           | .error _ => false))))
  ∧ (Azure.getInstanceIDByNodeName st fresh flat name).2
      = (Azure.getInstanceIDByNodeName st fresh flat2 name).2 := by
  unfold Azure.getInstanceIDByNodeName Azure.getCachedVirtualMachine
  rcases hvm : Azure.getVMFromCache st.cache name with _ | vm
  · rcases hneg : st.availabilitySetNodesCache.contains name with _ | _
    · have hnegm : name ∉ st.availabilitySetNodesCache := by simpa using hneg
      rcases fresh with e | newCache
      · by_cases he : e = Azure.CloudErr.instanceNotFound
        · simp [hvm, hneg, he, hnegm]
        · simp [hvm, hneg, he, hnegm]
      · rcases hvm2 : Azure.getVMFromCache newCache name with _ | vm2
        · simp [hvm, hneg, hvm2]
        · simp [hvm, hneg, hvm2, hnegm]
    · have hnegm : name ∈ st.availabilitySetNodesCache := by simpa using hneg
      rcases fresh with e | newCache <;> simp [hvm, hneg, hnegm]
  · simp [hvm]

/-- C6: the elastic-scaling-group lookup accumulates the instances of every
page of a complete response trace until the continuation token is empty; the
instance lookup then fails with the not-found error on zero matches, fails
with the ambiguity error on more than one match, and returns the single
matching instance id otherwise; the group lookup keyed by the resolved
instance id follows the same zero-and-more-than-one rules. -/
theorem c6_instance_and_group_lookup :
    (∀ responses acc, completePages responses = true →
        Aws.describeInstancesLoop responses acc = some (.ok (pagesInstances responses acc)))
  ∧ (∀ ec2Api nodeName instances,
        Aws.describeInstances (ec2Api (Aws.instanceIDFilters nodeName)) = some (.ok instances) →
          (instances = [] →
              Aws.instanceID ec2Api nodeName
                = some (.error ("no instance found for " ++ nodeName)))
        ∧ (1 < instances.length →
              Aws.instanceID ec2Api nodeName
                = some (.error ("multiple instances found for name: " ++ nodeName)))
        ∧ (∀ inst, instances = [inst] →
              Aws.instanceID ec2Api nodeName = some (.ok (stringValue inst.instanceId))))
  ∧ (∀ ec2Api asgApi nodeName iid ds,
        Aws.instanceID ec2Api nodeName = some (.ok iid) → iid ≠ "" →
        Aws.describeAutoScalingInstances (asgApi [iid]) = some (.ok ds) →
          (ds = [] →
              Aws.autoScalingGroupID ec2Api asgApi nodeName
                = some (.error ("error no instance group found for " ++ nodeName)))
        ∧ (1 < ds.length →
              Aws.autoScalingGroupID ec2Api asgApi nodeName
                = some (.error ("multiple auto scaling instances found for name: " ++ nodeName)))
        ∧ (∀ d, ds = [d] →
              Aws.autoScalingGroupID ec2Api asgApi nodeName
                = some (.ok (stringValue d.autoScalingGroupName)))) := by
  refine ⟨?_, ?_, ?_⟩
  · intro responses
    induction responses with
    | nil => intro acc h; simp [completePages] at h
    | cons p rest ih =>
      intro acc h
      match p with
      | .error e => simp [completePages] at h
      | .ok r =>
        unfold completePages at h
        by_cases ht : (stringValue r.nextToken == "") = true
        · simp only [ht, if_true] at h
          have hrest : rest = [] := by simpa using h
          subst hrest
          simp [Aws.describeInstancesLoop, pagesInstances, ht]
        · simp only [ht, if_false] at h
          simp only [Bool.not_eq_true] at ht
          simp [Aws.describeInstancesLoop, pagesInstances, ht, ih _ h]
  · intro ec2Api nodeName instances hdi
    refine ⟨?_, ?_, ?_⟩
    · rintro rfl
      simp [Aws.instanceID, hdi]
    · intro hlen
      have h0 : (instances.length == 0) = false := by
        simp only [beq_eq_false_iff_ne, ne_eq]
        omega
      simp [Aws.instanceID, hdi, h0, hlen]
    · rintro inst rfl
      simp [Aws.instanceID, hdi]
  · intro ec2Api asgApi nodeName iid ds hii hne hds
    have hbeq : (iid == "") = false := by simpa using hne
    refine ⟨?_, ?_, ?_⟩
    · rintro rfl
      simp [Aws.autoScalingGroupID, hii, hbeq, hds]
    · intro hlen
      have h0 : (ds.length == 0) = false := by
        simp only [beq_eq_false_iff_ne, ne_eq]
        omega
      simp [Aws.autoScalingGroupID, hii, hbeq, hds, h0, hlen]
    · rintro d rfl
      simp [Aws.autoScalingGroupID, hii, hbeq, hds]

/-- Witness for C6 on a two-page trace: the pages accumulate, the single match
yields its instance id, and the group lookup yields the single group. -/
theorem c6_witness :
    Aws.describeInstancesLoop [.ok c6Page1, .ok c6Page2] [] = some (.ok [⟨some "i-1"⟩]) ∧
    Aws.instanceID c6Ec2Api "node-1" = some (.ok "i-1") ∧
    Aws.autoScalingGroupID c6Ec2Api c6AsgApi "node-1" = some (.ok "asg-1") := by
  refine ⟨?_, ?_, ?_⟩
  · exact (c6_instance_and_group_lookup.1 [.ok c6Page1, .ok c6Page2] [] rfl).trans rfl
  · exact ((c6_instance_and_group_lookup.2.1 c6Ec2Api "node-1" [⟨some "i-1"⟩]
      rfl).2.2 ⟨some "i-1"⟩ rfl).trans rfl
  · exact ((c6_instance_and_group_lookup.2.2 c6Ec2Api c6AsgApi "node-1" "i-1"
      [⟨some "asg-1"⟩] rfl (by decide) rfl).2.2 ⟨some "asg-1"⟩ rfl).trans rfl

end KubeCSR
